import Mathlib

/-!
Verification of the screenshot-instrumentation driver and annotation pipeline
(src/main.py) against its specification.

The Python program wraps a Selenium WebDriver in a `ScreenshotDriver` proxy
that saves a screenshot before each intercepted action (get, find_element,
find_elements, quit, and — via `WrappedElement` — click, send_keys, submit),
keeps an append-only `history` of the screenshot paths, and afterwards runs an
OCR annotation pass over the history, drawing one rectangle and one text label
per detection onto each readable image.

The embedding below models the mutable driver state explicitly
(counter, history, output directory), timestamps as opaque strings supplied as
inputs (the code reads `datetime.now()`), the success or failure of
`save_screenshot` as a Boolean input, delegate calls to the wrapped Selenium
session as `Except` values, and cv2 images as explicit lists of the drawing
commands applied to them.
-/

namespace ScreenshotSpec

/-- A filesystem path, as the directory part and the file name part
(Python `Path`; `path.with_name` replaces `name`, keeping `dir`). -/
structure FsPath where
  dir : String
  name : String
deriving DecidableEq, Repr

/-- One entry of the driver's session history.  The Python code stores only the
path; `seq`, `ts` and `labelArg` record the arguments from which that path was
computed by `_next_name` (sequence counter value, timestamp string, and the
label passed to `screenshot` before sanitization). -/
structure Snapshot where
  seq : Nat
  ts : String
  labelArg : Option String
  path : FsPath
deriving DecidableEq, Repr

/-- The mutable state of a `ScreenshotDriver` instance: `_counter`, `history`
and `out_dir` (src/main.py lines 25-30).  The wrapped Selenium driver itself
is external and is modelled at each call site. -/
structure ScreenshotDriver where
  counter : Nat
  history : List Snapshot
  out_dir : String
deriving DecidableEq, Repr

/-- A freshly constructed `ScreenshotDriver`: counter 0, empty history. -/
def initState (d : String) : ScreenshotDriver :=
  { counter := 0, history := [], out_dir := d }

/-- Python `f"{n:04d}"`: the decimal digits of `n`, left-padded with zeros to
a minimum width of 4. -/
def pad4 (n : Nat) : String :=
  let s := toString n
  String.mk (List.replicate (4 - s.length) '0') ++ s

/-- Label sanitization from `_next_name` (line 37): every character that is
not alphanumeric, `-` or `_` is replaced by `_`.  (Python `str.isalnum` is
Unicode-aware; the embedding uses `Char.isAlphanum`, which agrees on the ASCII
labels this program produces.) -/
def sanitize (label : String) : String :=
  String.mk (label.data.map fun c =>
    if c.isAlphanum || c == '-' || c == '_' then c else '_')

/-- The label segment chosen by `_next_name` (lines 35-39): Python
`if label:` is false for both `None` and the empty string, in which case the
literal `action` is used; otherwise the label is sanitized. -/
def labelPart (label : Option String) : String :=
  match label with
  | some l => if l = "" then "action" else sanitize l
  | none => "action"

/-- The file name built by `_next_name` (line 40):
`f"{self._counter:04d}_{ts}_{label}.png"`. -/
def makeName (seq : Nat) (ts : String) (label : Option String) : String :=
  pad4 seq ++ "_" ++ ts ++ "_" ++ labelPart label ++ ".png"

/-- `ScreenshotDriver._next_name` (lines 32-41): increments the counter, then
returns `self.out_dir / name` for the name built from the new counter value,
the current timestamp and the (sanitized or defaulted) label.  The timestamp
is an input here because the code reads the wall clock. -/
def next_name (s : ScreenshotDriver) (ts : String) (label : Option String) :
    ScreenshotDriver × FsPath :=
  let c := s.counter + 1
  ({ s with counter := c }, ⟨s.out_dir, makeName c ts label⟩)

/-- `ScreenshotDriver.screenshot` (lines 43-48): compute the next name, ask
the wrapped driver to save the screenshot there, and append the path to
`history`.  `saveOk` models whether `save_screenshot` succeeds; when it raises
(`false`) the exception propagates with the history unmodified but the counter
already incremented — the `.error` carries the state at the raise point. -/
def screenshot (s : ScreenshotDriver) (ts : String) (label : Option String)
    (saveOk : Bool) : Except ScreenshotDriver (ScreenshotDriver × FsPath) :=
  let r := next_name s ts label
  if saveOk then
    .ok ({ r.1 with history := r.1.history ++ [⟨r.1.counter, ts, label, r.2⟩] }, r.2)
  else
    .error r.1

/-- The success path of `screenshot`: counter incremented, snapshot appended. -/
def screenshotOk (s : ScreenshotDriver) (ts : String) (label : Option String) :
    ScreenshotDriver × FsPath :=
  let c := s.counter + 1
  let p : FsPath := ⟨s.out_dir, makeName c ts label⟩
  ({ counter := c, history := s.history ++ [⟨c, ts, label, p⟩], out_dir := s.out_dir }, p)

theorem screenshot_true (s : ScreenshotDriver) (ts : String) (label : Option String) :
    screenshot s ts label true = .ok (screenshotOk s ts label) := rfl

/-- Python truthiness of `label or default` for an optional string: the
default is used when the label is `None` or empty. -/
def pyOr (label : Option String) (default : String) : String :=
  match label with
  | some l => if l = "" then default else l
  | none => default

/-- Errors escaping an intercepted proxy call: either `save_screenshot` raised
during the capture (history unchanged), or the wrapped session raised during
the delegated call (the pre-action snapshot is already in the history).  Each
constructor carries the driver state at the point the exception escapes. -/
inductive OpError (ε : Type) where
  | captureFailed (s : ScreenshotDriver)
  | delegateFailed (s : ScreenshotDriver) (e : ε)
deriving DecidableEq, Repr

/-- The shared shape of every intercepted operation in the code:
`self.screenshot(label)` followed by `return <delegated call>`.  The delegated
call on the wrapped session is an input (`delegate`); there is no
try/except, so a delegate error propagates unchanged after the capture. -/
def captureThenDelegate {ε α : Type} (s : ScreenshotDriver) (ts : String)
    (label : Option String) (saveOk : Bool) (delegate : Except ε α) :
    Except (OpError ε) (ScreenshotDriver × α) :=
  match screenshot s ts label saveOk with
  | .error s1 => .error (.captureFailed s1)
  | .ok (s2, _) =>
    match delegate with
    | .error e => .error (.delegateFailed s2 e)
    | .ok a => .ok (s2, a)

/-- `ScreenshotDriver.get` (lines 50-52): screenshot labelled
`before_get_<url>`, then delegate `driver.get(url)`. -/
def get {ε : Type} (s : ScreenshotDriver) (ts : String) (url : String)
    (saveOk : Bool) (delegate : Except ε Unit) :
    Except (OpError ε) (ScreenshotDriver × Unit) :=
  captureThenDelegate s ts (some ("before_get_" ++ url)) saveOk delegate

/-- A wrapped element handle (class `WrappedElement`, lines 77-106): the raw
Selenium element plus the label bound at lookup time.  The back-reference
`_sdriver` is threaded explicitly as driver state in each operation. -/
structure WrappedElement (Elem : Type) where
  element : Elem
  label : Option String

/-- `ScreenshotDriver.find_element` (lines 54-57): screenshot labelled
`label or "before_find_element"`, delegate the lookup, wrap the result. -/
def find_element {ε Elem : Type} (s : ScreenshotDriver) (ts : String)
    (label : Option String) (saveOk : Bool) (delegate : Except ε Elem) :
    Except (OpError ε) (ScreenshotDriver × WrappedElement Elem) :=
  (captureThenDelegate s ts (some (pyOr label "before_find_element")) saveOk
      delegate).map fun r => (r.1, ⟨r.2, label⟩)

/-- `ScreenshotDriver.find_elements` (lines 59-64): one screenshot labelled
`label or "before_find_elements"`, delegate, wrap every returned element. -/
def find_elements {ε Elem : Type} (s : ScreenshotDriver) (ts : String)
    (label : Option String) (saveOk : Bool) (delegate : Except ε (List Elem)) :
    Except (OpError ε) (ScreenshotDriver × List (WrappedElement Elem)) :=
  (captureThenDelegate s ts (some (pyOr label "before_find_elements")) saveOk
      delegate).map fun r => (r.1, r.2.map fun e => ⟨e, label⟩)

/-- `ScreenshotDriver.quit` (lines 69-71): screenshot labelled `before_quit`,
then delegate `driver.quit()`. -/
def quit {ε : Type} (s : ScreenshotDriver) (ts : String) (saveOk : Bool)
    (delegate : Except ε Unit) : Except (OpError ε) (ScreenshotDriver × Unit) :=
  captureThenDelegate s ts (some "before_quit") saveOk delegate

/-- `WrappedElement.click` (lines 91-93): screenshot labelled
`self._label or "before_click"`, then delegate `element.click()`. -/
def click {ε Elem : Type} (s : ScreenshotDriver) (ts : String)
    (el : WrappedElement Elem) (saveOk : Bool) (delegate : Except ε Unit) :
    Except (OpError ε) (ScreenshotDriver × Unit) :=
  captureThenDelegate s ts (some (pyOr el.label "before_click")) saveOk delegate

/-- `WrappedElement.send_keys` (lines 95-99): screenshot labelled
`self._label or "before_send_keys_<keys joined by _>"`, then delegate. -/
def send_keys {ε Elem : Type} (s : ScreenshotDriver) (ts : String)
    (el : WrappedElement Elem) (keys : List String) (saveOk : Bool)
    (delegate : Except ε Unit) : Except (OpError ε) (ScreenshotDriver × Unit) :=
  captureThenDelegate s ts
    (some (pyOr el.label ("before_send_keys_" ++ String.intercalate "_" keys)))
    saveOk delegate

/-- `WrappedElement.submit` (lines 101-103): screenshot labelled
`self._label or "before_submit"`, then delegate `element.submit()`. -/
def submit {ε Elem : Type} (s : ScreenshotDriver) (ts : String)
    (el : WrappedElement Elem) (saveOk : Bool) (delegate : Except ε Unit) :
    Except (OpError ε) (ScreenshotDriver × Unit) :=
  captureThenDelegate s ts (some (pyOr el.label "before_submit")) saveOk delegate

/-- `ScreenshotDriver.implicitly_wait` (lines 66-67): no capture, the
delegated result is returned untouched.  The delegate result is an input. -/
def implicitly_wait {α : Type} (s : ScreenshotDriver) (delegateResult : α) :
    ScreenshotDriver × α :=
  (s, delegateResult)

/-- `ScreenshotDriver.__getattr__` (lines 73-74): any attribute not defined on
the wrapper is fetched from the wrapped driver and returned as-is.  The
wrapped driver's attribute table is modelled as a function from names. -/
def getattrDriver {α : Type} (s : ScreenshotDriver) (driverAttr : String → α)
    (item : String) : ScreenshotDriver × α :=
  (s, driverAttr item)

/-- `WrappedElement.__getattr__` (lines 105-106): any attribute not defined on
the wrapper is fetched from the wrapped element and returned as-is. -/
def getattrElement {Elem α : Type} (s : ScreenshotDriver)
    (el : WrappedElement Elem) (elemAttr : Elem → String → α) (item : String) :
    ScreenshotDriver × α :=
  (s, elemAttr el.element item)

/-! ### Sequences of intercepted calls

Every intercepted operation above performs exactly one `screenshot` with its
label and then delegates; the delegated call never touches the
`ScreenshotDriver` state.  `ICall` enumerates the intercepted operations with
the data that determines their capture label, and `runCalls` is the effect on
the driver state of issuing such a sequence when every capture and every
delegate succeeds. -/

/-- One intercepted call, with the data that determines its capture label:
the element operations carry the label bound to the wrapped element at lookup
time (`WrappedElement._label`). -/
inductive ICall where
  | get (url : String)
  | find_element (label : Option String)
  | find_elements (label : Option String)
  | quit
  | click (boundLabel : Option String)
  | send_keys (boundLabel : Option String) (keys : List String)
  | submit (boundLabel : Option String)
deriving DecidableEq, Repr

/-- The label string each intercepted operation passes to `screenshot`. -/
def ICall.captureLabel : ICall → String
  | .get url => "before_get_" ++ url
  | .find_element l => pyOr l "before_find_element"
  | .find_elements l => pyOr l "before_find_elements"
  | .quit => "before_quit"
  | .click l => pyOr l "before_click"
  | .send_keys l keys => pyOr l ("before_send_keys_" ++ String.intercalate "_" keys)
  | .submit l => pyOr l "before_submit"

/-- Driver state after a sequence of intercepted calls, each paired with the
timestamp read during its capture, when every capture and delegate succeeds:
each call contributes exactly its successful `screenshot`. -/
def runCalls (s : ScreenshotDriver) (calls : List (ICall × String)) :
    ScreenshotDriver :=
  calls.foldl (fun st c => (screenshotOk st c.2 (some c.1.captureLabel)).1) s

theorem get_ok {ε : Type} (s : ScreenshotDriver) (ts url : String) :
    get s ts url true (.ok () : Except ε Unit)
      = .ok ((screenshotOk s ts (some (ICall.captureLabel (.get url)))).1, ()) := rfl

theorem find_element_ok {ε Elem : Type} (s : ScreenshotDriver) (ts : String)
    (label : Option String) (el : Elem) :
    find_element s ts label true (.ok el : Except ε Elem)
      = .ok ((screenshotOk s ts (some (ICall.captureLabel (.find_element label)))).1,
          ⟨el, label⟩) := rfl

theorem click_ok {ε Elem : Type} (s : ScreenshotDriver) (ts : String)
    (el : WrappedElement Elem) :
    click s ts el true (.ok () : Except ε Unit)
      = .ok ((screenshotOk s ts (some (ICall.captureLabel (.click el.label)))).1, ()) := rfl

theorem quit_ok {ε : Type} (s : ScreenshotDriver) (ts : String) :
    quit s ts true (.ok () : Except ε Unit)
      = .ok ((screenshotOk s ts (some (ICall.captureLabel .quit))).1, ()) := rfl

/-! ### Annotation pipeline

The loop at src/main.py lines 162-187: for each path in the history, read the
image (skip with a logged error if unreadable), run OCR on the path, draw one
green rectangle per detection from its first to its third corner point and the
recognized text 10 pixels above the first corner, then write the result next
to the source under the name `annotated_<original name>`. -/

/-- One OCR result item `(bbox, text, prob)`: the four corner points of the
detected quadrilateral (after the code's `int` casts) and the recognized
text.  The confidence `prob` is destructured by the loop but never used, so
it is omitted. -/
structure Detection where
  p0 : Int × Int
  p1 : Int × Int
  p2 : Int × Int
  p3 : Int × Int
  text : String
deriving DecidableEq, Repr

/-- One cv2 drawing call applied to an image: `cv2.rectangle(img, tl, br,
color, thickness)` or `cv2.putText(img, text, org, font, scale, color,
thickness)`.  Color is a BGR triple; the font constant and the fractional
font scale 0.6 do not affect placement and are not modelled. -/
inductive DrawCmd where
  | rect (tl br : Int × Int) (color : Nat × Nat × Nat) (thickness : Nat)
  | putText (text : String) (org : Int × Int) (color : Nat × Nat × Nat)
      (thickness : Nat)
deriving DecidableEq, Repr

/-- A decoded image, modelled as the list of drawing commands applied to it so
far (a freshly loaded image is `[]` plus whatever its pixels already show). -/
abbrev Image := List DrawCmd

/-- The inner detections loop (lines 170-183): for each detection in order,
draw the rectangle with top-left `bbox[0]` and bottom-right `bbox[2]` in green
with thickness 2, then the text at `(tl[0], tl[1] - 10)`. -/
def drawDetections (img : Image) (dets : List Detection) : Image :=
  dets.foldl (fun im d =>
    im ++ [DrawCmd.rect d.p0 d.p2 (0, 255, 0) 2,
           DrawCmd.putText d.text (d.p0.1, d.p0.2 - 10) (0, 255, 0) 2]) img

/-- The output path of the annotated image (line 185):
`img_path.with_name(f"annotated_{img_path.name}")` — same directory, fixed
prefix plus the original file name. -/
def annotatedName (p : FsPath) : FsPath :=
  ⟨p.dir, "annotated_" ++ p.name⟩

/-- The annotation loop (lines 162-187) over a list of snapshot paths.
`load` models `cv2.imread` (`none` for a missing or corrupt file) and
`detect` models `reader.readtext` on the path.  Returns the written annotated
images (path and contents) in input order, plus the number of load failures
logged. -/
def annotateAll (load : FsPath → Option Image)
    (detect : FsPath → List Detection) :
    List FsPath → List (FsPath × Image) × Nat
  | [] => ([], 0)
  | p :: rest =>
    match load p with
    | none =>
      let r := annotateAll load detect rest
      (r.1, r.2 + 1)
    | some img =>
      let r := annotateAll load detect rest
      ((annotatedName p, drawDetections img (detect p)) :: r.1, r.2)

/-! ## Theorems -/

/-- The history of a script outcome; an errored script contributes no
history here. -/
def historyOf {ε : Type} : Except (OpError ε) ScreenshotDriver → List Snapshot
  | .ok s => s.history
  | .error _ => []

/-- The scripted sequence of claim C1: navigate to `https://example.test`,
locate `#box` with label `box`, click the returned wrapped element, quit.
All captures and delegates succeed; `t1`-`t4` are the four timestamps. -/
def scriptC1 (d t1 t2 t3 t4 : String) : Except (OpError Unit) ScreenshotDriver := do
  let r1 ← get (initState d) t1 "https://example.test" true (Except.ok ())
  let r2 ← find_element r1.1 t2 (some "box") true (Except.ok () : Except Unit Unit)
  let r3 ← click r2.1 t3 r2.2 true (Except.ok ())
  let r4 ← quit r3.1 t4 true (Except.ok ())
  return r4.1

/-- C1: after navigate, locate-one with label `box`, click, close, the history
holds exactly four snapshots with capture labels
`before_get_https://example.test`, `box`, `box`, `before_quit` and sequence
numbers 1-4, in order. -/
theorem scriptC1_history (d t1 t2 t3 t4 : String) :
    (historyOf (scriptC1 d t1 t2 t3 t4)).map Snapshot.labelArg
        = [some "before_get_https://example.test", some "box", some "box",
           some "before_quit"]
      ∧ (historyOf (scriptC1 d t1 t2 t3 t4)).map Snapshot.seq = [1, 2, 3, 4]
      ∧ (historyOf (scriptC1 d t1 t2 t3 t4)).length = 4 :=
  ⟨rfl, rfl, rfl⟩

theorem range'_one_concat (s n : Nat) :
    List.range' s n ++ [s + n] = List.range' s (n + 1) := by
  induction n generalizing s with
  | zero => simp [List.range']
  | succ n ih =>
    rw [List.range'_succ, List.range'_succ]
    have := ih (s + 1)
    rw [← this]
    simp [List.cons_append]
    omega

theorem runCalls_inv (calls : List (ICall × String)) (s : ScreenshotDriver)
    (h1 : s.history.map Snapshot.seq = List.range' 1 s.counter)
    (h2 : s.counter = s.history.length) :
    (runCalls s calls).history.map Snapshot.seq
        = List.range' 1 (runCalls s calls).counter
      ∧ (runCalls s calls).counter = s.counter + calls.length
      ∧ (runCalls s calls).counter = (runCalls s calls).history.length := by
  induction calls generalizing s with
  | nil => exact ⟨h1, by simp [runCalls], by simpa [runCalls] using h2⟩
  | cons c rest ih =>
    have hstep : runCalls s (c :: rest)
        = runCalls (screenshotOk s c.2 (some c.1.captureLabel)).1 rest := rfl
    set s' := (screenshotOk s c.2 (some c.1.captureLabel)).1 with hs'
    have hh : s'.history = s.history
        ++ [⟨s.counter + 1, c.2, some c.1.captureLabel,
             ⟨s.out_dir, makeName (s.counter + 1) c.2 (some c.1.captureLabel)⟩⟩] := rfl
    have hc : s'.counter = s.counter + 1 := rfl
    have h1' : s'.history.map Snapshot.seq = List.range' 1 s'.counter := by
      rw [hh, hc, List.map_append, h1]
      simpa [Nat.add_comm 1 s.counter] using range'_one_concat 1 s.counter
    have h2' : s'.counter = s'.history.length := by
      rw [hh, hc, List.length_append, ← h2]
      simp
    obtain ⟨g1, g2, g3⟩ := ih s' h1' h2'
    refine ⟨by rwa [hstep], ?_, by rwa [hstep]⟩
    rw [hstep, g2, hc]
    simp [Nat.add_assoc, Nat.add_comm 1 rest.length]

/-- C2: issuing any sequence of N intercepted calls through the proxy, with
every capture succeeding, leaves a history of length at least N whose
sequence numbers are exactly `1 .. len(history)` in call order — strictly
increasing, no gaps, no repeats. -/
theorem runCalls_seq_numbers (d : String) (calls : List (ICall × String)) :
    calls.length ≤ (runCalls (initState d) calls).history.length
      ∧ (runCalls (initState d) calls).history.map Snapshot.seq
          = List.range' 1 ((runCalls (initState d) calls).history.length) := by
  obtain ⟨g1, g2, g3⟩ := runCalls_inv calls (initState d) (by simp [initState]) rfl
  have hlen : (runCalls (initState d) calls).history.length = calls.length := by
    rw [← g3, g2]
    simp [initState]
  constructor
  · omega
  · have hcnt : (runCalls (initState d) calls).counter = calls.length := by
      rw [g3, hlen]
    rw [hlen, g1, hcnt]

/-- C3: a capability call that is not one of the intercepted operations —
dynamic attribute fallback on the driver proxy or on the element proxy, or
`implicitly_wait` — appends no snapshot to the history, changes no driver
state, and returns exactly the value the wrapped driver or element would
have returned, unwrapped. -/
theorem getattr_transparent {α Elem : Type} (s : ScreenshotDriver)
    (driverAttr : String → α) (elemAttr : Elem → String → α)
    (el : WrappedElement Elem) (item : String) (w : α) :
    getattrDriver s driverAttr item = (s, driverAttr item)
      ∧ (getattrDriver s driverAttr item).1.history = s.history
      ∧ getattrElement s el elemAttr item = (s, elemAttr el.element item)
      ∧ (getattrElement s el elemAttr item).1.history = s.history
      ∧ implicitly_wait s w = (s, w) :=
  ⟨rfl, rfl, rfl, rfl, rfl⟩

/-- C4 counterexample: invoking `_next_name` is not side-effect free — from a
fresh driver it changes the counter from 0 to 1, and a second invocation with
the identical timestamp and label yields a different name than the first. -/
theorem next_name_not_pure :
    (next_name (initState "screenshots") "20240101_120000_000" (some "x")).1.counter
        ≠ (initState "screenshots").counter
      ∧ (next_name (initState "screenshots") "20240101_120000_000" (some "x")).2.name
          ≠ (next_name
              (next_name (initState "screenshots") "20240101_120000_000" (some "x")).1
              "20240101_120000_000" (some "x")).2.name := by
  constructor <;> decide

/-- C4 as amended: the name computation itself is a pure function of the
allocated sequence number, the timestamp and the label — `_next_name` returns
exactly `makeName (counter + 1) ts label` — but an invocation of `_next_name`
increments the stored counter by one; the history and output directory are
left unchanged. -/
theorem next_name_effect (s : ScreenshotDriver) (ts : String)
    (label : Option String) :
    (next_name s ts label).1.counter = s.counter + 1
      ∧ (next_name s ts label).1.history = s.history
      ∧ (next_name s ts label).1.out_dir = s.out_dir
      ∧ (next_name s ts label).2 = ⟨s.out_dir, makeName (s.counter + 1) ts label⟩ :=
  ⟨rfl, rfl, rfl, rfl⟩

theorem annotateAll_paths (load : FsPath → Option Image)
    (detect : FsPath → List Detection) (hist : List FsPath) :
    (annotateAll load detect hist).1.map Prod.fst
      = (hist.filter fun p => (load p).isSome).map annotatedName := by
  induction hist with
  | nil => rfl
  | cons p rest ih => cases h : load p <;> simp [annotateAll, h, ih]

theorem annotateAll_count (load : FsPath → Option Image)
    (detect : FsPath → List Detection) (hist : List FsPath) :
    (annotateAll load detect hist).1.length
      = (hist.filter fun p => (load p).isSome).length := by
  induction hist with
  | nil => rfl
  | cons p rest ih => cases h : load p <;> simp [annotateAll, h, ih]

theorem annotateAll_errs (load : FsPath → Option Image)
    (detect : FsPath → List Detection) (hist : List FsPath) :
    (annotateAll load detect hist).2
      = (hist.filter fun p => (load p).isNone).length := by
  induction hist with
  | nil => rfl
  | cons p rest ih => cases h : load p <;> simp [annotateAll, h, ih]

/-- The concrete three-snapshot history of claim C5. -/
def histC5 : List FsPath :=
  [⟨"screenshots", "0001_t1_a.png"⟩, ⟨"screenshots", "0002_t2_b.png"⟩,
   ⟨"screenshots", "0003_t3_c.png"⟩]

/-- An image loader for which exactly the second snapshot of `histC5` fails
to load. -/
def loadC5 : FsPath → Option Image :=
  fun p => if p.name = "0002_t2_b.png" then none else some []

/-- A recognizer returning no detections (its results do not matter for C5). -/
def detectC5 : FsPath → List Detection := fun _ => []

/-- C5: the annotation pass writes the annotated images in input order, one
per snapshot whose image loaded, each under `annotated_` plus the original
file name in the source snapshot's directory, and counts one non-fatal
failure per unreadable snapshot; in particular, for a three-snapshot history
whose second image fails to load, it produces exactly the annotated first and
third snapshots and records one failure. -/
theorem annotate_pipeline (load : FsPath → Option Image)
    (detect : FsPath → List Detection) (hist : List FsPath) :
    (annotateAll load detect hist).1.map Prod.fst
        = (hist.filter fun p => (load p).isSome).map annotatedName
      ∧ (annotateAll load detect hist).1.length
          = (hist.filter fun p => (load p).isSome).length
      ∧ (annotateAll load detect hist).2
          = (hist.filter fun p => (load p).isNone).length
      ∧ (∀ q : FsPath, annotatedName q = ⟨q.dir, "annotated_" ++ q.name⟩)
      ∧ annotateAll loadC5 detectC5 histC5
          = ([(⟨"screenshots", "annotated_0001_t1_a.png"⟩, []),
              (⟨"screenshots", "annotated_0003_t3_c.png"⟩, [])], 1) :=
  ⟨annotateAll_paths load detect hist, annotateAll_count load detect hist,
   annotateAll_errs load detect hist, fun _ => rfl, by decide⟩

/-- C6: when the wrapped session raises during the delegated call of an
intercepted operation, the same exception value escapes the proxy unchanged,
and at that point the pre-action snapshot has already been appended to the
history (shown for the shared capture-then-delegate shape and for its `get`
and `click` instances). -/
theorem delegate_error_propagates {ε α : Type} (s : ScreenshotDriver)
    (ts url : String) (label : Option String) (e : ε) (el : WrappedElement Unit) :
    captureThenDelegate s ts label true (Except.error e : Except ε α)
        = .error (.delegateFailed (screenshotOk s ts label).1 e)
      ∧ (screenshotOk s ts label).1.history
          = s.history ++ [⟨s.counter + 1, ts, label,
              ⟨s.out_dir, makeName (s.counter + 1) ts label⟩⟩]
      ∧ get s ts url true (Except.error e : Except ε Unit)
          = .error (.delegateFailed
              (screenshotOk s ts (some ("before_get_" ++ url))).1 e)
      ∧ click s ts el true (Except.error e : Except ε Unit)
          = .error (.delegateFailed
              (screenshotOk s ts (some (pyOr el.label "before_click"))).1 e) :=
  ⟨rfl, rfl, rfl, rfl⟩

theorem drawDetections_eq (img : Image) (dets : List Detection) :
    drawDetections img dets
      = img ++ (dets.map fun d =>
          [DrawCmd.rect d.p0 d.p2 (0, 255, 0) 2,
           DrawCmd.putText d.text (d.p0.1, d.p0.2 - 10) (0, 255, 0) 2]).flatten := by
  induction dets generalizing img with
  | nil => simp [drawDetections]
  | cons d rest ih =>
    have h1 : drawDetections img (d :: rest)
        = drawDetections (img ++ [DrawCmd.rect d.p0 d.p2 (0, 255, 0) 2,
            DrawCmd.putText d.text (d.p0.1, d.p0.2 - 10) (0, 255, 0) 2]) rest := rfl
    rw [h1, ih]
    simp

/-- C7: per detection, the pipeline draws the rectangle from the
quadrilateral's first corner (top-left) to its third corner (bottom-right)
and the recognized text 10 pixels above the first corner; in particular the
detection with corners (10,10), (50,10), (50,30), (10,30) and text `OK`
yields a rectangle (10,10)-(50,30) with its text at (10, 0). -/
theorem detection_draw (img : Image) (d : Detection) (dets : List Detection) :
    drawDetections img dets
        = img ++ (dets.map fun d =>
            [DrawCmd.rect d.p0 d.p2 (0, 255, 0) 2,
             DrawCmd.putText d.text (d.p0.1, d.p0.2 - 10) (0, 255, 0) 2]).flatten
      ∧ drawDetections img [d]
          = img ++ [DrawCmd.rect d.p0 d.p2 (0, 255, 0) 2,
              DrawCmd.putText d.text (d.p0.1, d.p0.2 - 10) (0, 255, 0) 2]
      ∧ drawDetections [] [⟨(10, 10), (50, 10), (50, 30), (10, 30), "OK"⟩]
          = [DrawCmd.rect (10, 10) (50, 30) (0, 255, 0) 2,
             DrawCmd.putText "OK" (10, 0) (0, 255, 0) 2] :=
  ⟨drawDetections_eq img dets, rfl, by decide⟩

/-- C8: the produced artifact name is the zero-padded sequence, the timestamp
and the label segment (sanitized label, or the literal `action` when absent)
joined by underscores, plus the fixed `.png` extension; every character of the
sanitized segment is alphanumeric, `-` or `_`, and for sequence numbers below
10000 the padded segment is exactly 4 characters long. -/
theorem name_format (n : Nat) (ts l : String) :
    makeName n ts none = pad4 n ++ "_" ++ ts ++ "_" ++ "action" ++ ".png"
      ∧ (l ≠ "" → makeName n ts (some l)
          = pad4 n ++ "_" ++ ts ++ "_" ++ sanitize l ++ ".png")
      ∧ (∀ c ∈ (sanitize l).data, c.isAlphanum ∨ c = '-' ∨ c = '_')
      ∧ (n < 10000 → (pad4 n).length = 4) := by
  refine ⟨rfl, ?_, ?_, ?_⟩
  · intro h
    simp [makeName, labelPart, h]
  · intro c hc
    have hc' : c ∈ l.data.map (fun c =>
        if c.isAlphanum || c == '-' || c == '_' then c else '_') := hc
    rcases List.mem_map.mp hc' with ⟨c', _, rfl⟩
    by_cases h : (c'.isAlphanum || c' == '-' || c' == '_') = true
    · rw [if_pos h]
      have h2 := h
      simp only [Bool.or_eq_true, beq_iff_eq] at h2
      tauto
    · rw [if_neg h]
      right; right; rfl
  · intro h
    have hrepr : toString n = Nat.repr n := rfl
    have hlen : (toString n).length ≤ 4 := by
      rw [hrepr]
      exact Nat.repr_length n 4 (by norm_num) (by simpa using h)
    have : (pad4 n).length = (4 - (toString n).length) + (toString n).length := by
      simp [pad4, String.length_append, String.length_mk]
    omega

theorem name_format_witness :
    ("a/b c" : String) ≠ ""
      ∧ makeName 7 "t0" (some "a/b c")
          = pad4 7 ++ "_" ++ "t0" ++ "_" ++ sanitize "a/b c" ++ ".png"
      ∧ (7 : Nat) < 10000 ∧ (pad4 7).length = 4 :=
  ⟨by decide, (name_format 7 "t0" "a/b c").2.1 (by decide), by decide,
    (name_format 7 "t0" "a/b c").2.2.2 (by decide)⟩

/-- C9: annotation is deterministic over its inputs — any two loaders and any
two recognizers that agree on the snapshots of the history (in particular, the
same ones run twice) produce identical annotated images and identical failure
counts, so every rectangle and text placement is a pure function of the
source images and the detection results. -/
theorem annotate_deterministic (load load' : FsPath → Option Image)
    (detect detect' : FsPath → List Detection) (hist : List FsPath)
    (hL : ∀ p ∈ hist, load p = load' p)
    (hD : ∀ p ∈ hist, detect p = detect' p) :
    annotateAll load detect hist = annotateAll load' detect' hist := by
  induction hist with
  | nil => rfl
  | cons p rest ih =>
    have hlp : load p = load' p := hL p (by simp)
    have hdp : detect p = detect' p := hD p (by simp)
    have ih' := ih (fun q hq => hL q (by simp [hq])) (fun q hq => hD q (by simp [hq]))
    simp only [annotateAll, hlp, hdp, ih']

theorem annotate_deterministic_witness :
    annotateAll (fun _ => some []) (fun _ => []) [⟨"d", "a.png"⟩]
      = annotateAll (fun p => if p.name = "zz" then none else some [])
          (fun p => if p.name = "zz" then [] else []) [⟨"d", "a.png"⟩] :=
  annotate_deterministic _ _ _ _ _
    (by intro p hp; rw [List.mem_singleton] at hp; subst hp; decide)
    (by intro p hp; rw [List.mem_singleton] at hp; subst hp; decide)

/-- The driver state carried by a `screenshot` outcome: the new state on
success, the state at the raise point on failure. -/
def stateOf : Except ScreenshotDriver (ScreenshotDriver × FsPath) → ScreenshotDriver
  | .ok r => r.1
  | .error s => s

/-- State after one successful capture from a fresh driver. -/
def c10s1 : ScreenshotDriver :=
  stateOf (screenshot (initState "shots") "t1" (some "a") true)

/-- State after a subsequent capture whose `save_screenshot` raises. -/
def c10s2 : ScreenshotDriver := stateOf (screenshot c10s1 "t2" (some "b") false)

/-- State after the next successful capture following the failed one. -/
def c10s3 : ScreenshotDriver := stateOf (screenshot c10s2 "t3" (some "c") true)

/-- C10 counterexample: after a successful capture (sequence 1), a failed
capture and another successful capture, the history's sequence numbers are
[1, 3] — the new snapshot's number is two, not one, greater than the last
recorded snapshot's. -/
theorem failed_capture_gap_counterexample :
    c10s3.history.map Snapshot.seq = [1, 3]
      ∧ ¬ c10s3.history.map Snapshot.seq = [1, 1 + 1] := by
  constructor <;> decide

/-- C10 as amended: if `save_screenshot` raises during a capture, the history
is unchanged while the counter has already been incremented, so when the last
recorded snapshot carries the current counter value, the next successful
capture is numbered two greater than it — the failed capture consumed the
intervening number, leaving a gap in the on-disk numbering. -/
theorem failed_capture_gap (s : ScreenshotDriver) (ts ts' : String)
    (lab lab' : Option String) (lastSnap : Snapshot)
    (_hlast : s.history.getLast? = some lastSnap)
    (hseq : lastSnap.seq = s.counter) :
    screenshot s ts lab false = .error { s with counter := s.counter + 1 }
      ∧ (stateOf (screenshot s ts lab false)).history = s.history
      ∧ (stateOf (screenshot s ts lab false)).counter = s.counter + 1
      ∧ (stateOf (screenshot (stateOf (screenshot s ts lab false)) ts' lab'
            true)).history.map Snapshot.seq
          = s.history.map Snapshot.seq ++ [lastSnap.seq + 2] := by
  refine ⟨rfl, rfl, rfl, ?_⟩
  simp [stateOf, screenshot, next_name, hseq]

/-- A driver that has recorded exactly one snapshot, numbered 1. -/
def c10wState : ScreenshotDriver :=
  { counter := 1,
    history := [⟨1, "t1", some "a", ⟨"shots", "0001_t1_a.png"⟩⟩],
    out_dir := "shots" }

theorem failed_capture_gap_witness :
    (stateOf (screenshot (stateOf (screenshot c10wState "t2" (some "b") false))
        "t3" (some "c") true)).history.map Snapshot.seq
      = c10wState.history.map Snapshot.seq ++ [1 + 2] :=
  (failed_capture_gap c10wState "t2" "t3" (some "b") (some "c")
    ⟨1, "t1", some "a", ⟨"shots", "0001_t1_a.png"⟩⟩ (by decide) (by decide)).2.2.2

end ScreenshotSpec
